import Mathlib

/-!
Verification of the telemetry exporter (`src/exporter.py`) of the
SDR_DEVICE repository.

The aggregation engine is embedded shallowly over `ℚ`:
pure helper functions of the source become Lean functions, the
latest-reading cache becomes `Option`-valued arguments of the snapshot
builder, and every fallible host query (file reads, vendor library
calls) becomes an `Option`/flag input describing the query's outcome,
with the source's `try/except` structure translated explicitly.
Python's `round(x, n)` is modelled as rounding `x * 10^n` to the
nearest integer; no input considered here is a floating-point tie, so
the rational model agrees with the binary floats of the source.
-/

namespace SDRDevice

/-- `round(x, n)` of the source: round to `n` decimal places. -/
def roundTo (n : ℕ) (q : ℚ) : ℚ := (round (q * 10 ^ n) : ℤ) / 10 ^ n

/-! ## Battery normalization (`publish_telemetry_callback`, step 1) -/

/-- One `/battery_state` reading, the two fields the builder uses. -/
structure BatteryReading where
  percentage : ℚ
  voltage : ℚ
deriving DecidableEq

/-- The normalization threshold rule of the source:
`ratio = raw_pct if raw_pct <= 1.0 else raw_pct / 100.0`. -/
def batteryRatio (p : ℚ) : ℚ := if p ≤ 1 then p else p / 100

/-- `wh = ratio * self.spec_wh` of the source. -/
def batteryWh (p c : ℚ) : ℚ := batteryRatio p * c

/-! ## Lidar summary (`publish_telemetry_callback`, step 4)

`LaserScan.ranges` arrives as a sequence whose elements are either
numeric or malformed junk; an element is modelled as `Option ℚ`
(`none` = a non-numeric element).  NumPy raises on the very first
vectorised operation `(ranges > 0.01) & (ranges < 3.5)` when the
array holds non-numeric data, i.e. before `scan_summary` is mutated,
and on all-numeric data none of the guarded operations raises. -/

/-- The lidar summary dict `{"min_dist": .., "front_dist": ..}`. -/
structure ScanSummary where
  min_dist : ℚ
  front_dist : ℚ
deriving DecidableEq

/-- The comparison `ranges > 0.01` raises iff some element is
non-numeric. -/
def summaryRaises (rs : List (Option ℚ)) : Bool := rs.any (·.isNone)

/-- `valid_ranges = ranges[(ranges > 0.01) & (ranges < 3.5)]`. -/
def validRanges (rs : List ℚ) : List ℚ :=
  rs.filter (fun r => 1/100 < r ∧ r < 7/2)

/-- `np.min` over a nonempty list, as a fold. -/
def listMin : List ℚ → ℚ
  | [] => -1
  | x :: xs => xs.foldl min x

/-- `scan_summary["min_dist"]`: the minimum of the valid ranges, `-1.0`
when the valid set is empty. -/
def minDist (rs : List ℚ) : ℚ :=
  if validRanges rs = [] then -1 else listMin (validRanges rs)

/-- `front_cone = np.concatenate((ranges[:10], ranges[-10:]))`
(only evaluated when `len(ranges) > 20`). -/
def frontCone (rs : List ℚ) : List ℚ :=
  rs.take 10 ++ rs.drop (rs.length - 10)

/-- `front_valid = front_cone[front_cone > 0.01]`. -/
def frontValid (rs : List ℚ) : List ℚ :=
  (frontCone rs).filter (fun r => 1/100 < r)

/-- `scan_summary["front_dist"]`: stays `-1.0` unless
`len(ranges) > 20`, then the mean (`np.mean`) of the front-valid
elements, `-1.0` when none. -/
def frontDist (rs : List ℚ) : ℚ :=
  if 20 < rs.length then
    if frontValid rs = [] then -1
    else (frontValid rs).sum / (frontValid rs).length
  else -1

/-- The whole `try`-block of step 4: starts from
`{"min_dist": -1.0, "front_dist": -1.0}`; a raising input leaves that
initial state (the raise happens before either field is assigned). -/
def scanSummary (rs : List (Option ℚ)) : ScanSummary :=
  if summaryRaises rs then ⟨-1, -1⟩
  else
    let qs := rs.filterMap id
    ⟨minDist qs, frontDist qs⟩

/-! ## The other sensor readings -/

/-- `/amcl_pose` position, the two fields the builder uses. -/
structure PoseReading where
  x : ℚ
  y : ℚ
deriving DecidableEq

/-- `/imu` reading, the one field the builder uses. -/
structure ImuReading where
  linear_accel_x : ℚ
deriving DecidableEq

/-- `/odom` twist, the two fields the builder uses. -/
structure OdomReading where
  linear_velocity_x : ℚ
  angular_velocity_z : ℚ
deriving DecidableEq

/-! ## The snapshot (the `data` dict packaged each tick)

`ts`, `bot` and `compute` are environment-derived; the sensor-derived
numeric blocks are modelled here.  The rounding in each block is the
source's `round(.., 4 | 2 | 3)` at packaging time. -/

/-- The `battery` block of the JSON document. -/
structure BatteryBlock where
  percentage : ℚ
  voltage : ℚ
  wh : ℚ
deriving DecidableEq

/-- The `pose` block of the JSON document. -/
structure PoseBlock where
  x : ℚ
  y : ℚ
deriving DecidableEq

/-- The `motion` block of the JSON document. -/
structure MotionBlock where
  linear_velocity : ℚ
  angular_velocity : ℚ
  acceleration_x : ℚ
deriving DecidableEq

/-- The `env` block of the JSON document. -/
structure EnvBlock where
  obstacle_min : ℚ
  obstacle_front : ℚ
deriving DecidableEq

/-- The sensor-derived part of the telemetry snapshot. -/
structure Snapshot where
  battery : BatteryBlock
  pose : PoseBlock
  motion : MotionBlock
  env : EnvBlock
deriving DecidableEq

/-- `publish_telemetry_callback` steps 1–4 plus the JSON packaging:
reads the latest value of each channel (`none` = never delivered) and
builds the one snapshot of the tick.  `spec_wh` is the configured
battery capacity constant (`BATTERY_SPEC_WH`). -/
def buildSnapshot (bat : Option BatteryReading) (pose : Option PoseReading)
    (imu : Option ImuReading) (scan : Option (List (Option ℚ)))
    (odom : Option OdomReading) (spec_wh : ℚ) : Snapshot :=
  let ratio := match bat with | some b => batteryRatio b.percentage | none => 0
  let wh := match bat with | some b => batteryWh b.percentage spec_wh | none => 0
  let volt := match bat with | some b => b.voltage | none => 0
  let xPos := match pose with | some p => p.x | none => 0
  let yPos := match pose with | some p => p.y | none => 0
  let linV := match odom with | some o => o.linear_velocity_x | none => 0
  let angV := match odom with | some o => o.angular_velocity_z | none => 0
  let accX := match imu with | some i => i.linear_accel_x | none => 0
  let s := match scan with | some rs => scanSummary rs | none => ⟨-1, -1⟩
  { battery := ⟨roundTo 4 ratio, roundTo 2 volt, roundTo 2 wh⟩
    pose := ⟨roundTo 3 xPos, roundTo 3 yPos⟩
    motion := ⟨roundTo 3 linV, roundTo 3 angV, roundTo 3 accX⟩
    env := ⟨roundTo 3 s.min_dist, roundTo 3 s.front_dist⟩ }

/-! ## Disk type classification (`get_disk_type`)

Inputs: the root-mount device path (`none` = no partition mounted at
`/`), and the content of the device's
`/sys/block/<dev>/queue/rotational` flag file (`none` = the file does
not exist, or reading it raised — both paths of the source end in
`"Unknown"`). -/

/-- Substring test over the characters of a string (`"x" in s`). -/
def charsContain (s pat : List Char) : Bool :=
  match s with
  | [] => pat.isEmpty
  | _ :: t => pat.isPrefixOf s || charsContain t pat

/-- `pat in s` of Python. -/
def strContains (s pat : String) : Bool := charsContain s.data pat.data

/-- `s.startswith(pat)` of Python, over the characters. -/
def strStartsWith (s pat : String) : Bool := pat.data.isPrefixOf s.data

/-- `get_disk_type` of the source, over the two host inputs it
consults. -/
def get_disk_type (root_part : Option String) (rotational : Option String) :
    String :=
  match root_part with
  | none => "Unknown"
  | some p =>
    if strContains p "mmcblk" then "SD/eMMC"
    else if strContains p "nvme" then "NVMe SSD"
    else if strStartsWith p "/dev/sd" then
      match rotational with
      | some v => if v = "1" then "HDD" else "SSD"
      | none => "Unknown"
    else "Unknown"

/-! ## GPU probe (`get_gpu_info`)

The vendor (NVML) queries are modelled by their outcomes: `none` = the
call raised.  The source assigns the populated dict in one literal at
the end of the `try`-block, so a raise anywhere leaves the default
dict untouched. -/

/-- The outcomes of the NVML calls `get_gpu_info` makes, in call
order: device count, first device's name, memory info (total, used),
utilization rates. -/
structure GpuQueries where
  nvmlAvailable : Bool
  deviceCount : Option ℕ
  devName : Option String
  memTotal : Option ℕ
  memUsed : Option ℕ
  utilGpu : Option ℚ
deriving DecidableEq

/-- The `gpu_info` dict. -/
structure GpuInfo where
  available : Bool
  name : Option String
  model : Option String
  memory_total_bytes : ℕ
  memory_used_bytes : ℕ
  memory_usage_percent : ℚ
  utilization_percent : ℚ
deriving DecidableEq

/-- The initial/unavailable `gpu_info` dict. -/
def gpuDefault : GpuInfo := ⟨false, none, none, 0, 0, 0, 0⟩

/-- `get_gpu_info` of the source: the populated dict only when the
library is available, the count is positive and every query succeeds;
otherwise the untouched default. -/
def get_gpu_info (q : GpuQueries) : GpuInfo :=
  if !q.nvmlAvailable then gpuDefault
  else
    match q.deviceCount with
    | none => gpuDefault
    | some 0 => gpuDefault
    | some (_ + 1) =>
      match q.devName, q.memTotal, q.memUsed, q.utilGpu with
      | some nm, some t, some u, some g =>
        ⟨true, some nm, some nm, t, u,
          if 0 < t then roundTo 2 ((u : ℚ) / t * 100) else 0, g⟩
      | _, _, _, _ => gpuDefault

/-! ## NPU probe (`get_npu_info`)

Host state: existence of the gate paths `/sys/class/devfreq` and
`/dev/rknpu`; for each candidate load file, `none` = the file does not
exist, `some none` = it exists but reading or `float()`-parsing its
(`%`-stripped) content raised, `some (some q)` = it parses to `q`;
and the two `lsusb` signature hits (a raising `lsusb` call falls
through exactly like a missing signature). -/

/-- The host inputs `get_npu_info` consults. -/
structure NpuHost where
  devfreqClassExists : Bool
  devRknpuExists : Bool
  debugLoad : Option (Option ℚ)
  devfreqLoad : Option (Option ℚ)
  coralUsb : Bool
  movidiusUsb : Bool
deriving DecidableEq

/-- The `npu_info` dict. -/
structure NpuInfo where
  available : Bool
  name : Option String
  model : Option String
  utilization_percent : ℚ
deriving DecidableEq

/-- The initial/unavailable `npu_info` dict. -/
def npuDefault : NpuInfo := ⟨false, none, none, 0⟩

/-- The `for path in rknpu_paths` loop inside the `try`: the first
existing load file is read and parsed; a parse failure raises out of
the loop (the second path is not consulted), yielding `none` like the
no-file case. -/
def rknpuLoadResult (h : NpuHost) : Option ℚ :=
  match h.debugLoad with
  | some r => r
  | none =>
    match h.devfreqLoad with
    | some r => r
    | none => none

/-- The USB chain of `get_npu_info`: Coral Edge TPU signatures first,
then Intel Movidius, else the unavailable default. -/
def npuUsbChain (h : NpuHost) : NpuInfo :=
  if h.coralUsb then ⟨true, some "Google Coral Edge TPU", some "Edge TPU", 0⟩
  else if h.movidiusUsb then
    ⟨true, some "Intel Movidius NCS2", some "Myriad X VPU", 0⟩
  else npuDefault

/-- `get_npu_info` of the source: the Rockchip block runs only when
one of the gate paths exists; inside it, a parsed load returns
immediately, otherwise `/dev/rknpu` alone still reports an available
NPU with load `0.0`; only then the USB chain runs. -/
def get_npu_info (h : NpuHost) : NpuInfo :=
  if h.devfreqClassExists || h.devRknpuExists then
    match rknpuLoadResult h with
    | some load => ⟨true, some "Rockchip NPU", some "RK3588/RK3568 NPU", load⟩
    | none =>
      if h.devRknpuExists then ⟨true, some "Rockchip NPU", some "RK35xx NPU", 0⟩
      else npuUsbChain h
  else npuUsbChain h

/-! ## Helper lemmas -/

/-- A fold of `min` yields its seed or a list element. -/
theorem foldl_min_mem (xs : List ℚ) (x : ℚ) :
    xs.foldl min x = x ∨ xs.foldl min x ∈ xs := by
  induction xs generalizing x with
  | nil => exact Or.inl rfl
  | cons y ys ih =>
    rcases ih (min x y) with h | h
    · rcases min_choice x y with hm | hm
      · exact Or.inl (h.trans hm)
      · refine Or.inr ?_
        have hy : List.foldl min x (y :: ys) = y := by
          simpa [List.foldl_cons, hm] using h
        simp [hy]
    · exact Or.inr (List.mem_cons_of_mem _ h)

/-- A fold of `min` is below its seed and every list element. -/
theorem foldl_min_le (xs : List ℚ) (x : ℚ) :
    xs.foldl min x ≤ x ∧ ∀ y ∈ xs, xs.foldl min x ≤ y := by
  induction xs generalizing x with
  | nil => simp
  | cons z zs ih =>
    obtain ⟨h1, h2⟩ := ih (min x z)
    refine ⟨h1.trans (min_le_left _ _), ?_⟩
    intro y hy
    rcases List.mem_cons.mp hy with rfl | hy
    · exact h1.trans (min_le_right _ _)
    · exact h2 y hy

/-- `listMin` of a nonempty list is an element of it. -/
theorem listMin_mem {l : List ℚ} (h : l ≠ []) : listMin l ∈ l := by
  cases l with
  | nil => exact absurd rfl h
  | cons x xs =>
    rcases foldl_min_mem xs x with h1 | h1
    · show xs.foldl min x ∈ x :: xs
      rw [h1]
      exact List.mem_cons_self x xs
    · exact List.mem_cons_of_mem _ h1

/-- `listMin` of a nonempty list is a lower bound of it. -/
theorem listMin_le {l : List ℚ} (h : l ≠ []) : ∀ y ∈ l, listMin l ≤ y := by
  cases l with
  | nil => exact absurd rfl h
  | cons x xs =>
    intro y hy
    rcases List.mem_cons.mp hy with rfl | hy
    · exact (foldl_min_le xs y).1
    · exact (foldl_min_le xs x).2 y hy

/-- `round` is monotone over `ℚ`. -/
theorem round_rat_mono {a b : ℚ} (h : a ≤ b) : round a ≤ round b := by
  rw [round_eq, round_eq]
  exact Int.floor_le_floor (by linarith)

/-- `roundTo` is monotone in its argument. -/
theorem roundTo_mono (n : ℕ) {a b : ℚ} (h : a ≤ b) : roundTo n a ≤ roundTo n b := by
  unfold roundTo
  have hp : (0 : ℚ) < 10 ^ n := by positivity
  have hr : ((round (a * 10 ^ n) : ℤ) : ℚ) ≤ ((round (b * 10 ^ n) : ℤ) : ℚ) := by
    exact_mod_cast round_rat_mono (mul_le_mul_of_nonneg_right h hp.le)
  exact (div_le_div_iff_of_pos_right hp).mpr hr

/-- An empty valid set yields `min_dist = -1`. -/
theorem minDist_eq_neg_one {rs : List ℚ} (h : validRanges rs = []) :
    minDist rs = -1 := by simp [minDist, h]

/-- A nonempty valid set yields its own minimum. -/
theorem minDist_mem {rs : List ℚ} (h : validRanges rs ≠ []) :
    minDist rs ∈ validRanges rs := by
  simpa [minDist, h] using listMin_mem h

/-- `min_dist` is a lower bound of the valid set when it is nonempty. -/
theorem minDist_le_valid {rs : List ℚ} (h : validRanges rs ≠ []) :
    ∀ y ∈ validRanges rs, minDist rs ≤ y := by
  simpa [minDist, h] using listMin_le h

/-- Every element of the valid set lies in the window `(0.01, 3.5)`. -/
theorem mem_validRanges_bounds {rs : List ℚ} {x : ℚ}
    (hx : x ∈ validRanges rs) : 1 / 100 < x ∧ x < 7 / 2 := by
  have h := List.mem_filter.mp hx
  simpa using h.2

/-- Every front-valid element exceeds `0.01` and comes from the front
cone. -/
theorem mem_frontValid {rs : List ℚ} {x : ℚ} (hx : x ∈ frontValid rs) :
    x ∈ frontCone rs ∧ 1 / 100 < x := by
  simpa [frontValid, List.mem_filter] using hx

/-- `roundTo 3` fixes the three boundary values the lidar summary can
publish. -/
theorem roundTo_three_fixed :
    roundTo 3 (-1) = -1 ∧ roundTo 3 (1 / 100) = 1 / 100 ∧
      roundTo 3 (7 / 2) = 7 / 2 := by
  norm_num [roundTo, round_eq]

/-! ## Claim theorems -/

/-- C1 (amended): for the raw battery percentage `p` of the latest
reading, `ratio = p` when `p ≤ 1`, `ratio = p/100` when `p > 1`, and
for `0 ≤ p ≤ 100` the ratio lies in `[0, 1]` (for `p > 100` it
exceeds `1`); in every case the pre-rounding `energy_wh` equals the
ratio times the configured battery capacity constant. -/
theorem C1_battery_normalization (p c : ℚ) (hp : 0 ≤ p) :
    (p ≤ 1 → batteryRatio p = p) ∧
    (1 < p → batteryRatio p = p / 100) ∧
    (p ≤ 100 → 0 ≤ batteryRatio p ∧ batteryRatio p ≤ 1) ∧
    batteryWh p c = batteryRatio p * c := by
  unfold batteryRatio batteryWh
  refine ⟨fun h => by simp [h], fun h => by simp [not_le.mpr h], ?_, rfl⟩
  intro h100
  split
  · constructor <;> linarith
  · constructor <;> [linarith; linarith [not_le.mp (by assumption)]]

/-- Witness for C1 at the raw percentage `73` with capacity `19.98`. -/
theorem C1_battery_normalization_witness :
    (0 : ℚ) ≤ 73 ∧
      (((73 : ℚ) ≤ 1 → batteryRatio 73 = 73) ∧
        (1 < (73 : ℚ) → batteryRatio 73 = 73 / 100) ∧
        ((73 : ℚ) ≤ 100 → 0 ≤ batteryRatio 73 ∧ batteryRatio 73 ≤ 1) ∧
        batteryWh 73 (1998 / 100) = batteryRatio 73 * (1998 / 100)) :=
  ⟨by norm_num, C1_battery_normalization 73 (1998 / 100) (by norm_num)⟩

/-- C1 counterexample: a raw percentage of `200` yields the ratio `2`,
which is outside `[0, 1]`, refuting "in both cases the resulting
ratio lies in [0,1]" as stated. -/
theorem C1_ratio_not_bounded_counterexample :
    batteryRatio 200 = 2 ∧ ¬ batteryRatio 200 ≤ 1 := by
  norm_num [batteryRatio]

/-- C9: on a tick where all five sensor channels are absent the
builder still produces (exactly) one snapshot, whose numeric fields
are the documented defaults: battery `0.0, 0.0, 0.0`, pose `0, 0`,
motion `0, 0, 0`, and both environment distances `-1.0`. -/
theorem C9_all_absent_defaults (c : ℚ) :
    buildSnapshot none none none none none c =
      ⟨⟨0, 0, 0⟩, ⟨0, 0⟩, ⟨0, 0, 0⟩, ⟨-1, -1⟩⟩ := by
  norm_num [buildSnapshot, roundTo, round_eq]

/-- C2: a scan input whose summary computation raises (a non-numeric
element makes the first vectorised comparison raise) leaves both
summary fields at `-1.0`, and the snapshot of that tick is the same
full snapshot as with no scan at all: the rest is still built. -/
theorem C2_lidar_error_atomicity (b : Option BatteryReading)
    (p : Option PoseReading) (i : Option ImuReading) (rs : List (Option ℚ))
    (o : Option OdomReading) (c : ℚ) (h : summaryRaises rs = true) :
    scanSummary rs = ⟨-1, -1⟩ ∧
      buildSnapshot b p i (some rs) o c = buildSnapshot b p i none o c := by
  constructor
  · simp [scanSummary, h]
  · simp [buildSnapshot, scanSummary, h]

/-- Witness for C2 at the one-element malformed scan `[none]`. -/
theorem C2_lidar_error_atomicity_witness :
    summaryRaises [none] = true ∧
      (scanSummary [none] = ⟨-1, -1⟩ ∧
        buildSnapshot none none none (some [none]) none 0 =
          buildSnapshot none none none none none 0) :=
  ⟨rfl, C2_lidar_error_atomicity none none none [none] none 0 rfl⟩

/-- C3 (amended): with the latest battery reading
`{percentage: 0.73, voltage: 16.1}` and capacity constant `19.98`,
the published battery block is `{percentage: 0.73, voltage: 16.10,
wh: 14.59}` (the raw energy is `14.5854`, which rounds to 2 decimals
as `14.59`). -/
theorem C3_scenarioA_battery_block :
    (buildSnapshot (some ⟨73 / 100, 161 / 10⟩) none none none none
        (1998 / 100)).battery = ⟨73 / 100, 161 / 10, 1459 / 100⟩ := by
  norm_num [buildSnapshot, batteryWh, batteryRatio, roundTo, round_eq]

/-- C3 counterexample: in that scenario the published `wh` is
`14.59`, not the claimed `14.58`. -/
theorem C3_scenarioA_counterexample :
    (buildSnapshot (some ⟨73 / 100, 161 / 10⟩) none none none none
          (1998 / 100)).battery.wh = 1459 / 100 ∧
      (1459 / 100 : ℚ) ≠ 1458 / 100 := by
  constructor
  · norm_num [buildSnapshot, batteryWh, batteryRatio, roundTo, round_eq]
  · norm_num

/-- C5 (amended): the pre-rounding `min_dist` lies in
`{-1} ∪ (0.01, 3.5)` and is the true minimum of the valid set (the
ranges strictly between `0.01` and `3.5`), or `-1` when that set is
empty; the published value, the result rounded to 3 decimals, lies in
the closed variant `{-1} ∪ [0.01, 3.5]` (rounding can land exactly on
a window boundary). -/
theorem C5_min_distance_window (rs : List ℚ) :
    (minDist rs = -1 ∨ (1 / 100 < minDist rs ∧ minDist rs < 7 / 2)) ∧
    (validRanges rs = [] → minDist rs = -1) ∧
    (validRanges rs ≠ [] →
      minDist rs ∈ validRanges rs ∧ ∀ y ∈ validRanges rs, minDist rs ≤ y) ∧
    (roundTo 3 (minDist rs) = -1 ∨
      (1 / 100 ≤ roundTo 3 (minDist rs) ∧ roundTo 3 (minDist rs) ≤ 7 / 2)) := by
  by_cases h : validRanges rs = []
  · have hm := minDist_eq_neg_one h
    exact ⟨Or.inl hm, fun _ => hm, fun hne => absurd h hne,
      Or.inl (by rw [hm]; exact roundTo_three_fixed.1)⟩
  · have hmem := minDist_mem h
    have hb := mem_validRanges_bounds hmem
    refine ⟨Or.inr hb, fun he => absurd he h,
      fun _ => ⟨hmem, minDist_le_valid h⟩, Or.inr ⟨?_, ?_⟩⟩
    · calc (1 / 100 : ℚ) = roundTo 3 (1 / 100) := roundTo_three_fixed.2.1.symm
        _ ≤ roundTo 3 (minDist rs) := roundTo_mono 3 hb.1.le
    · calc roundTo 3 (minDist rs) ≤ roundTo 3 (7 / 2) :=
          roundTo_mono 3 hb.2.le
        _ = 7 / 2 := roundTo_three_fixed.2.2

/-- Witness for C5 at the range list `[2]`, whose valid set is
nonempty. -/
theorem C5_min_distance_window_witness :
    validRanges [(2 : ℚ)] ≠ [] ∧
      (minDist [(2 : ℚ)] ∈ validRanges [(2 : ℚ)] ∧
        ∀ y ∈ validRanges [(2 : ℚ)], minDist [(2 : ℚ)] ≤ y) := by
  have h : validRanges [(2 : ℚ)] ≠ [] := by
    norm_num [validRanges, List.filter]
  exact ⟨h, (C5_min_distance_window [(2 : ℚ)]).2.2.1 h⟩

/-- C5 counterexample: for the range list `[3.4996]` the published
(3-decimal-rounded) value is exactly `3.5`, which is neither `-1.0`
nor inside the open interval `(0.01, 3.5)`. -/
theorem C5_published_value_counterexample :
    roundTo 3 (minDist [34996 / 10000]) = 7 / 2 ∧
      ¬ (roundTo 3 (minDist [34996 / 10000]) = -1 ∨
        (1 / 100 < roundTo 3 (minDist [34996 / 10000]) ∧
          roundTo 3 (minDist [34996 / 10000]) < 7 / 2)) := by
  have h : roundTo 3 (minDist [34996 / 10000]) = 7 / 2 := by
    norm_num [minDist, validRanges, listMin, List.filter, roundTo, round_eq]
  refine ⟨h, ?_⟩
  rw [h]
  norm_num

/-! ## C4: the claim-side front filter

The claim's parenthetical asserts that readings `≥ 3.5` never
contribute to the front-distance mean, i.e. that the front filter also
applies the `< 3.5` upper bound.  That variant is defined here, from
the claim's words, to be compared with the source's `frontDist`. -/

/-- Modelled from the claim (not the source): the front-valid set with
the claimed additional `< 3.5` upper bound. -/
def frontValidClaimed (rs : List ℚ) : List ℚ :=
  (frontCone rs).filter (fun r => 1 / 100 < r ∧ r < 7 / 2)

/-- Modelled from the claim (not the source): the front distance a
`< 3.5`-bounded filter would produce. -/
def frontDistClaimed (rs : List ℚ) : ℚ :=
  if 20 < rs.length then
    if frontValidClaimed rs = [] then -1
    else (frontValidClaimed rs).sum / (frontValidClaimed rs).length
  else -1

/-- C4 counterexample: 25 readings of `3.6` give a front distance of
`3.6` — a value `≥ 3.5`, produced entirely by readings `≥ 3.5` —
while the claimed `< 3.5`-bounded filter would give `-1`; readings
`≥ 3.5` do contribute to the front-distance mean. -/
theorem C4_front_window_counterexample :
    frontDist (List.replicate 25 (18 / 5)) = 18 / 5 ∧
      ¬ (18 / 5 : ℚ) < 7 / 2 ∧
      frontDistClaimed (List.replicate 25 (18 / 5)) = -1 := by
  refine ⟨?_, by norm_num, ?_⟩
  · norm_num [frontDist, frontValid, frontCone, List.replicate, List.filter]
    simp
  · norm_num [frontDistClaimed, frontValidClaimed, frontCone,
      List.replicate, List.filter]

/-- C4 (amended): `min_dist` is `-1` or an element of the valid set
(readings strictly between `0.01` and `3.5`), and `front_dist` is
`-1` or the mean of the nonempty front-valid set, whose members all
exceed `0.01` and come from the front cone (first 10 plus last 10
readings); readings `≥ 3.5`, however, may contribute to the
front-distance mean. -/
theorem C4_window_provenance (rs : List ℚ) :
    (minDist rs = -1 ∨
      (minDist rs ∈ validRanges rs ∧ 1 / 100 < minDist rs ∧
        minDist rs < 7 / 2)) ∧
    (frontDist rs = -1 ∨
      (frontValid rs ≠ [] ∧ (∀ x ∈ frontValid rs, 1 / 100 < x) ∧
        (∀ x ∈ frontValid rs, x ∈ frontCone rs) ∧
        frontDist rs = (frontValid rs).sum / (frontValid rs).length)) := by
  constructor
  · by_cases h : validRanges rs = []
    · exact Or.inl (minDist_eq_neg_one h)
    · have hmem := minDist_mem h
      exact Or.inr ⟨hmem, mem_validRanges_bounds hmem⟩
  · by_cases hn : 20 < rs.length
    · by_cases hf : frontValid rs = []
      · exact Or.inl (by simp [frontDist, hn, hf])
      · refine Or.inr ⟨hf, fun x hx => (mem_frontValid hx).2,
          fun x hx => (mem_frontValid hx).1, ?_⟩
        simp [frontDist, hn, hf]
    · exact Or.inl (by simp [frontDist, hn])

/-- Witness for C4 at the range list of 25 readings of `3.6`. -/
theorem C4_window_provenance_witness :
    (minDist (List.replicate 25 ((18 : ℚ) / 5)) = -1 ∨
      (minDist (List.replicate 25 ((18 : ℚ) / 5)) ∈
          validRanges (List.replicate 25 ((18 : ℚ) / 5)) ∧
        1 / 100 < minDist (List.replicate 25 ((18 : ℚ) / 5)) ∧
        minDist (List.replicate 25 ((18 : ℚ) / 5)) < 7 / 2)) ∧
    (frontDist (List.replicate 25 ((18 : ℚ) / 5)) = -1 ∨
      (frontValid (List.replicate 25 ((18 : ℚ) / 5)) ≠ [] ∧
        (∀ x ∈ frontValid (List.replicate 25 ((18 : ℚ) / 5)), 1 / 100 < x) ∧
        (∀ x ∈ frontValid (List.replicate 25 ((18 : ℚ) / 5)),
          x ∈ frontCone (List.replicate 25 ((18 : ℚ) / 5))) ∧
        frontDist (List.replicate 25 ((18 : ℚ) / 5)) =
          (frontValid (List.replicate 25 ((18 : ℚ) / 5))).sum /
            (frontValid (List.replicate 25 ((18 : ℚ) / 5))).length)) :=
  C4_window_provenance (List.replicate 25 ((18 : ℚ) / 5))

/-- C8: for range lists of length at most 20 the front distance is
`-1.0`; for longer lists it is the arithmetic mean of the elements
`> 0.01` among the first 10 plus last 10 elements, or `-1.0` when no
such element exists. -/
theorem C8_front_cone_mean (rs : List ℚ) :
    (rs.length ≤ 20 → frontDist rs = -1) ∧
    (20 < rs.length →
      frontDist rs =
        if (rs.take 10 ++ rs.drop (rs.length - 10)).filter
            (fun r => 1 / 100 < r) = [] then -1
        else ((rs.take 10 ++ rs.drop (rs.length - 10)).filter
              (fun r => 1 / 100 < r)).sum /
          ((rs.take 10 ++ rs.drop (rs.length - 10)).filter
              (fun r => 1 / 100 < r)).length) := by
  constructor
  · intro h
    simp [frontDist, not_lt.mpr h]
  · intro h
    simp only [frontDist, frontValid, frontCone, h, if_true]

/-- Witness for C8: an empty list stays `-1.0`, and the 25-element
scenario list (all readings `3.6`) yields the front-cone mean `3.6`. -/
theorem C8_front_cone_mean_witness :
    frontDist ([] : List ℚ) = -1 ∧
      frontDist (List.replicate 25 ((18 : ℚ) / 5)) = 18 / 5 := by
  constructor
  · exact (C8_front_cone_mean []).1 (by simp)
  · have h := (C8_front_cone_mean (List.replicate 25 ((18 : ℚ) / 5))).2
      (by simp)
    rw [h]
    norm_num [List.replicate, List.filter]
    simp

/-- C6: disk type classification is a pure, total function of the
root-device path pattern and the rotational-flag value, first match
wins: `mmcblk` in the path → `SD/eMMC`; else `nvme` → `NVMe SSD`;
else an `/dev/sd*` path with flag `1` → `HDD`, any other readable
flag value → `SSD`, and a missing or unreadable flag file →
`Unknown`; every other input (including no root device) → `Unknown`. -/
theorem C6_disk_type_table (p : String) (v : Option String) :
    (strContains p "mmcblk" = true → get_disk_type (some p) v = "SD/eMMC") ∧
    (strContains p "mmcblk" = false → strContains p "nvme" = true →
      get_disk_type (some p) v = "NVMe SSD") ∧
    (strContains p "mmcblk" = false → strContains p "nvme" = false →
      strStartsWith p "/dev/sd" = true →
      ((v = some "1" → get_disk_type (some p) v = "HDD") ∧
        (∀ s, v = some s → s ≠ "1" → get_disk_type (some p) v = "SSD") ∧
        (v = none → get_disk_type (some p) v = "Unknown"))) ∧
    (strContains p "mmcblk" = false → strContains p "nvme" = false →
      strStartsWith p "/dev/sd" = false →
      get_disk_type (some p) v = "Unknown") ∧
    get_disk_type none v = "Unknown" := by
  refine ⟨fun h1 => by simp [get_disk_type, h1],
    fun h1 h2 => by simp [get_disk_type, h1, h2],
    fun h1 h2 h3 => ⟨fun hv => by simp [get_disk_type, h1, h2, h3, hv],
      fun s hv hs => by simp [get_disk_type, h1, h2, h3, hv, hs],
      fun hv => by simp [get_disk_type, h1, h2, h3, hv]⟩,
    fun h1 h2 h3 => by simp [get_disk_type, h1, h2, h3],
    by simp [get_disk_type]⟩

/-- Witness for C6 at the SATA path `/dev/sda` with rotational flag
`0`. -/
theorem C6_disk_type_table_witness :
    strContains "/dev/sda" "mmcblk" = false ∧
      strContains "/dev/sda" "nvme" = false ∧
      strStartsWith "/dev/sda" "/dev/sd" = true ∧
      get_disk_type (some "/dev/sda") (some "0") = "SSD" := by
  refine ⟨by decide, by decide, by decide, ?_⟩
  exact ((C6_disk_type_table "/dev/sda" (some "0")).2.2.1 (by decide)
    (by decide) (by decide)).2.1 "0" rfl (by decide)

/-- C7 counterexample: a host with a readable Rockchip debug load
file ("10") but neither gate path (`/sys/class/devfreq` directory,
`/dev/rknpu` device) and a Coral USB signature is reported as the
Coral Edge TPU, not the Rockchip device. -/
theorem C7_npu_priority_counterexample :
    get_npu_info ⟨false, false, some (some 10), none, true, false⟩ =
      ⟨true, some "Google Coral Edge TPU", some "Edge TPU", 0⟩ ∧
      (some "Google Coral Edge TPU" : Option String) ≠
        some "Rockchip NPU" := by
  constructor
  · norm_num [get_npu_info, rknpuLoadResult, npuUsbChain]
  · decide

/-- C7 (amended): when a Rockchip gate path exists and the first
existing load file parses to `q`, the result reports the Rockchip
device with utilization `q` — even when a USB accelerator signature
is also present; when `/dev/rknpu` exists but no load value could be
read, the result is the available Rockchip fallback with
utilization `0.0`; whenever `/dev/rknpu` exists the reported device
is the Rockchip NPU (the USB signatures are only consulted when no
Rockchip device is found); and with no Rockchip device and no USB
signature the result is `available = false`. -/
theorem C7_npu_priority (h : NpuHost) :
    ((h.devfreqClassExists = true ∨ h.devRknpuExists = true) →
      ∀ q, rknpuLoadResult h = some q →
        get_npu_info h =
          ⟨true, some "Rockchip NPU", some "RK3588/RK3568 NPU", q⟩) ∧
    (h.devRknpuExists = true → rknpuLoadResult h = none →
      get_npu_info h = ⟨true, some "Rockchip NPU", some "RK35xx NPU", 0⟩) ∧
    (h.devRknpuExists = true →
      (get_npu_info h).available = true ∧
        (get_npu_info h).name = some "Rockchip NPU") ∧
    (h.devRknpuExists = false → rknpuLoadResult h = none →
      h.coralUsb = false → h.movidiusUsb = false →
      get_npu_info h = npuDefault) := by
  refine ⟨?_, ?_, ?_, ?_⟩
  · intro hg q hq
    rcases hg with hg | hg <;> simp [get_npu_info, hg, hq]
  · intro hd hq
    simp [get_npu_info, hd, hq]
  · intro hd
    rcases hload : rknpuLoadResult h with _ | q
    · simp [get_npu_info, hd, hload]
    · simp [get_npu_info, hd, hload]
  · intro hd hq hc hm
    by_cases hg : h.devfreqClassExists = true
    · simp [get_npu_info, npuUsbChain, hd, hq, hc, hm, hg, npuDefault]
    · simp only [Bool.not_eq_true] at hg
      simp [get_npu_info, npuUsbChain, hd, hq, hc, hm, hg, npuDefault]

/-- Witness for C7: a host exposing both the Rockchip load file
(parsing to `10`) and a Coral USB signature reports the Rockchip
device with utilization `10`. -/
theorem C7_npu_priority_witness :
    get_npu_info ⟨true, true, some (some 10), none, true, false⟩ =
      ⟨true, some "Rockchip NPU", some "RK3588/RK3568 NPU", 10⟩ :=
  (C7_npu_priority ⟨true, true, some (some 10), none, true, false⟩).1
    (Or.inl rfl) 10 rfl

/-- C10: `get_gpu_info` is total and atomic — the result is either
exactly the unavailable default (in particular whenever the NVML
library is unavailable, the device count is zero or any vendor query
fails) or a fully populated record with `available = true`,
`name`/`model` set; and the memory-percentage division happens only
when `memory_total > 0`, the field being `0.0` otherwise, so no
division by zero is reachable. -/
theorem C10_gpu_probe_total_atomic (q : GpuQueries) :
    (get_gpu_info q = gpuDefault ∨
      ((get_gpu_info q).available = true ∧
        (get_gpu_info q).name.isSome = true ∧
        (get_gpu_info q).model = (get_gpu_info q).name)) ∧
    ((get_gpu_info q).memory_total_bytes = 0 →
      (get_gpu_info q).memory_usage_percent = 0) ∧
    (0 < (get_gpu_info q).memory_total_bytes →
      (get_gpu_info q).memory_usage_percent =
        roundTo 2 (((get_gpu_info q).memory_used_bytes : ℚ) /
          ((get_gpu_info q).memory_total_bytes : ℚ) * 100)) ∧
    ((q.nvmlAvailable = false ∨ q.deviceCount = none ∨
        q.deviceCount = some 0 ∨ q.devName = none ∨ q.memTotal = none ∨
        q.memUsed = none ∨ q.utilGpu = none) →
      get_gpu_info q = gpuDefault) := by
  rcases q with ⟨a, dc, nm, mt, mu, ug⟩
  cases a
  · simp [get_gpu_info, gpuDefault]
  · rcases dc with _ | dc
    · simp [get_gpu_info, gpuDefault]
    · rcases dc with _ | k
      · simp [get_gpu_info, gpuDefault]
      · rcases nm with _ | nm
        · simp [get_gpu_info, gpuDefault]
        · rcases mt with _ | t
          · simp [get_gpu_info, gpuDefault]
          · rcases mu with _ | u
            · simp [get_gpu_info, gpuDefault]
            · rcases ug with _ | g
              · simp [get_gpu_info, gpuDefault]
              · refine ⟨Or.inr (by simp [get_gpu_info]), ?_, ?_, ?_⟩
                · intro ht
                  simp [get_gpu_info] at ht ⊢
                  simp [ht]
                · intro ht
                  simp [get_gpu_info] at ht ⊢
                  intro h0
                  exact absurd (h0 ▸ ht) (lt_irrefl 0)
                · intro hcase
                  rcases hcase with hh | hh | hh | hh | hh | hh | hh <;>
                    simp_all

/-- Witness for C10 at a populated probe (count 1, memory 1 of 4
bytes used): the percentage field is computed by the guarded
division. -/
theorem C10_gpu_probe_total_atomic_witness :
    0 < (get_gpu_info
        ⟨true, some 1, some "G", some 4, some 1, some 7⟩).memory_total_bytes ∧
      (get_gpu_info
          ⟨true, some 1, some "G", some 4, some 1, some 7⟩).memory_usage_percent
        = roundTo 2 (((get_gpu_info
              ⟨true, some 1, some "G", some 4, some 1,
                some 7⟩).memory_used_bytes : ℚ) /
            ((get_gpu_info
              ⟨true, some 1, some "G", some 4, some 1,
                some 7⟩).memory_total_bytes : ℚ) * 100) :=
  ⟨by decide,
    (C10_gpu_probe_total_atomic
      ⟨true, some 1, some "G", some 4, some 1, some 7⟩).2.2.1 (by decide)⟩

end SDRDevice
